import Mathlib

/-!
Shallow embedding of the per-frame display-analysis engine of the
intel img hwcomposer repository (src/common/base/DisplayAnalyzer.cpp),
together with theorems settling the frozen claims about it.

Machine integers: layer flag words are C uint32_t values, modelled as Nat
with bitwise operations; rectangle coordinates are C int, modelled as Int.
Buffer handles are opaque uint32_t identifiers, modelled as Nat with 0 as
the null handle.
-/

namespace DisplayAnalyzerModel

/-- Standard AOSP hwcomposer_defs.h value: per-display-contents flag bit. -/
def HWC_GEOMETRY_CHANGED : Nat := 1

/-- Standard AOSP hwcomposer_defs.h value: per-layer flag bit. -/
def HWC_SKIP_LAYER : Nat := 1

/-- Standard AOSP hwcomposer_defs.h value: per-layer hint bit. -/
def HWC_HINT_CLEAR_FB : Nat := 2

/-- Standard AOSP composition type HWC_FRAMEBUFFER. -/
def HWC_FRAMEBUFFER : Nat := 0

/-- Standard AOSP composition type HWC_OVERLAY. -/
def HWC_OVERLAY : Nat := 1

/-- Standard AOSP composition type HWC_FRAMEBUFFER_TARGET. -/
def HWC_FRAMEBUFFER_TARGET : Nat := 3

/-- Modelled from the spec: the Intel-specific trick-mode
content-classification flag bit on a layer (the header defining its
numeric value is not part of this repository); an opaque flag bit
distinct from HWC_SKIP_LAYER, only ever tested and never assigned. -/
def HWC_TRICK_MODE : Nat := 4

/-- All 32 bits set; used to model C bitwise complement of a uint32_t mask. -/
def UINT32_MASK : Nat := 0xFFFFFFFF

/-- IDisplayDevice::DEVICE_PRIMARY. -/
def DEVICE_PRIMARY : Nat := 0

/-- The hwc_rect_t structure: int coordinates. -/
structure HwcRect where
  left : Int
  top : Int
  right : Int
  bottom : Int
  deriving DecidableEq

/-- One hwc_layer_1_t as far as the analyzer reads or writes it:
content handle (0 = null), flag word, hint word, composition type,
destination rectangle, source rectangle and transform. -/
structure Layer where
  handle : Nat
  flags : Nat := 0
  hints : Nat := 0
  compositionType : Nat := HWC_FRAMEBUFFER
  displayFrame : HwcRect
  sourceCrop : HwcRect := ⟨0, 0, 0, 0⟩
  transform : Nat := 0
  deriving DecidableEq

/-- One hwc_display_contents_1_t: the ordered layer list (the last entry
is the synthetic frame-buffer target) and the per-display flag word. -/
structure DisplayContent where
  hwLayers : List Layer
  flags : Nat := 0
  deriving DecidableEq

/-- The drmModeModeInfo fields the analyzer reads (uint16_t in C). -/
structure ModeInfo where
  hdisplay : Nat
  vdisplay : Nat
  deriving DecidableEq

/-- The external collaborators consumed during one frame:
BufferManager::lockDataBuffer composed with DataBuffer::getFormat
(none models a lock failure), DisplayQuery::isVideoFormat, and
Drm::getModeInfo for DEVICE_EXTERNAL (none models query failure). -/
structure Collaborators where
  lockFormat : Nat → Option Nat
  isVideoFormat : Nat → Bool
  modeInfo : Option ModeInfo

/-- DisplayAnalyzer::Event: the tagged variant posted by other threads. -/
inductive Event where
  | hotplug (connected : Bool)
  | blank (blank : Bool)
  | video (preparing playing : Bool)
  deriving DecidableEq

/-- The sticky analyzer state (the mXxx member fields), with the pending
event queue. Field defaults mirror DisplayAnalyzer::initialize(). -/
structure AnalyzerState where
  enableVideoExtendedMode : Bool := true
  videoExtendedMode : Bool := false
  forceCloneMode : Bool := false
  blankDevice : Bool := false
  videoPlaying : Bool := false
  videoPreparing : Bool := false
  overlayAllowed : Bool := true
  pendingEvents : List Event := []
  deriving DecidableEq

/-- The frame snapshot: display slot i holds the DisplayContent submitted
for display i, or none when that slot is inactive (null pointer). -/
abbrev Displays := List (Option DisplayContent)

/-- The state right after DisplayAnalyzer::initialize(). -/
def initState (enable : Bool) : AnalyzerState :=
  { enableVideoExtendedMode := enable }

/-- DisplayAnalyzer::isVideoLayer: a null handle is never a video layer;
a buffer whose lock fails is never a video layer; otherwise classify by
the locked buffer format. -/
def isVideoLayer (env : Collaborators) (layer : Layer) : Bool :=
  if layer.handle = 0 then
    false
  else
    match env.lockFormat layer.handle with
    | none => false
    | some fmt => env.isVideoFormat fmt

/-- DisplayAnalyzer::isVideoEmbedded: false when the external display
mode query fails; otherwise true exactly when the destination rectangle
is strictly smaller than the mode resolution minus one in both
dimensions (the source writes dstW less than hdisplay - 1 and dstH less
than vdisplay - 1). -/
def isVideoEmbedded (env : Collaborators) (layer : Layer) : Bool :=
  match env.modeInfo with
  | none => false
  | some mode =>
    let dstW : Int := layer.displayFrame.right - layer.displayFrame.left
    let dstH : Int := layer.displayFrame.bottom - layer.displayFrame.top
    decide (dstW < (mode.hdisplay : Int) - 1 ∧ dstH < (mode.vdisplay : Int) - 1)

/-- Modelled from the spec (for comparison only): the spec describes the
embedded test as the destination rectangle being strictly smaller than
the mode resolution itself in both dimensions. -/
def isVideoEmbeddedSpec (env : Collaborators) (layer : Layer) : Bool :=
  match env.modeInfo with
  | none => false
  | some mode =>
    let dstW : Int := layer.displayFrame.right - layer.displayFrame.left
    let dstH : Int := layer.displayFrame.bottom - layer.displayFrame.top
    decide (dstW < (mode.hdisplay : Int) ∧ dstH < (mode.vdisplay : Int))

/-- The scanning loop of DisplayAnalyzer::detectTrickMode: walk the layer
list, and on the first layer carrying HWC_TRICK_MODE reset its
composition type to HWC_FRAMEBUFFER and stop; returns whether such a
layer was found together with the updated layer list. -/
def resetTrickLayer : List Layer → Bool × List Layer
  | [] => (false, [])
  | l :: ls =>
    if l.flags &&& HWC_TRICK_MODE != 0 then
      (true, { l with compositionType := HWC_FRAMEBUFFER } :: ls)
    else
      let r := resetTrickLayer ls
      (r.1, l :: r.2)

/-- DisplayAnalyzer::detectTrickMode: no-op on a null list; otherwise
scan all layers (frame-buffer target included) for the trick-mode flag,
and when the detected boolean differs from the stored mForceCloneMode,
set HWC_GEOMETRY_CHANGED on the display and store the new value. -/
def detectTrickMode (s : AnalyzerState) (list : Option DisplayContent) :
    AnalyzerState × Option DisplayContent :=
  match list with
  | none => (s, none)
  | some c =>
    let r := resetTrickLayer c.hwLayers
    let detected := r.1
    let c2 : DisplayContent := { c with hwLayers := r.2 }
    if detected != s.forceCloneMode then
      ({ s with forceCloneMode := detected },
       some { c2 with flags := c2.flags ||| HWC_GEOMETRY_CHANGED })
    else
      (s, some c2)

/-- Number of display slots holding non-null content (the activeDisplays
counter of detectVideoExtendedMode). -/
def countActive (ds : Displays) : Nat :=
  (ds.filterMap id).length

/-- Whether any non-null display content carries HWC_GEOMETRY_CHANGED
(the geometryChanged accumulator of detectVideoExtendedMode). -/
def anyGeometryChanged (ds : Displays) : Bool :=
  ds.any fun o =>
    match o with
    | none => false
    | some c => c.flags &&& HWC_GEOMETRY_CHANGED != 0

/-- The primary-device scan of detectVideoExtendedMode: the handle of the
first video layer among the layers excluding the frame-buffer target. -/
def findVideoHandle (env : Collaborators) (ls : List Layer) : Option Nat :=
  (ls.dropLast.find? fun l => isVideoLayer env l).map fun l => l.handle

/-- The secondary-device scan of detectVideoExtendedMode: walk the
non-primary display slots in order; in each non-null content look for a
layer (frame-buffer target excluded) whose handle equals the primary
video handle; the first match over all displays ends the whole scan. -/
def findHandleMatch (h : Nat) : Displays → Option Layer
  | [] => none
  | none :: rest => findHandleMatch h rest
  | some c :: rest =>
    match c.hwLayers.dropLast.find? fun l => l.handle == h with
    | some l => some l
    | none => findHandleMatch h rest

/-- DisplayAnalyzer::detectVideoExtendedMode, translated step by step from
the source: video not playing clears both sticky flags; one or zero
active displays clears the extended-mode flag; no geometry change keeps
the previous result; otherwise the flag is reset and re-derived from the
primary video layer and the first cross-display handle match. -/
def detectVideoExtendedMode (env : Collaborators) (s : AnalyzerState)
    (ds : Displays) : AnalyzerState :=
  if !s.videoPlaying then
    { s with videoExtendedMode := false, forceCloneMode := false }
  else
    let activeDisplays := countActive ds
    let geometryChanged := anyGeometryChanged ds
    if activeDisplays ≤ 1 then
      { s with videoExtendedMode := false }
    else if !geometryChanged then
      s
    else
      let s1 := { s with videoExtendedMode := false }
      match ds with
      | [] => s1
      | c0 :: rest =>
        match c0 with
        | none => s1
        | some content =>
          match findVideoHandle env content.hwLayers with
          | none => s1
          | some videoHandle =>
            match findHandleMatch videoHandle rest with
            | none => s1
            | some layer =>
              if !isVideoEmbedded env layer then
                { s1 with videoExtendedMode := true }
              else
                s1

/-- DisplayAnalyzer::checkVideoExtendedMode. -/
def checkVideoExtendedMode (s : AnalyzerState) : Bool :=
  s.videoExtendedMode && !s.forceCloneMode

/-- DisplayAnalyzer::isVideoExtendedModeEnabled: re-reads the process
property every call (propValue models atoi of the property string, none
models a failed property read) and returns the stored switch. -/
def isVideoExtendedModeEnabled (propValue : Option Nat) (s : AnalyzerState) :
    AnalyzerState × Bool :=
  let s2 :=
    match propValue with
    | none => s
    | some v => { s with enableVideoExtendedMode := v != 0 }
  (s2, s2.enableVideoExtendedMode)

/-- The per-layer mutation of DisplayAnalyzer::blankSecondaryDevice:
when blanking, set the clear-framebuffer hint, clear the skip flag and
force overlay composition; when un-blanking, clear the hint and force
framebuffer composition. -/
def blankLayer (blank : Bool) (l : Layer) : Layer :=
  if blank then
    { l with
        hints := l.hints ||| HWC_HINT_CLEAR_FB,
        flags := l.flags &&& (UINT32_MASK ^^^ HWC_SKIP_LAYER),
        compositionType := HWC_OVERLAY }
  else
    { l with
        hints := l.hints &&& (UINT32_MASK ^^^ HWC_HINT_CLEAR_FB),
        compositionType := HWC_FRAMEBUFFER }

/-- Apply f to every list element except the last one (the loops running
j from 0 to numHwLayers - 2, which also cover the empty list because the
C bound is computed in signed arithmetic). -/
def mapExceptLast (f : Layer → Layer) : List Layer → List Layer
  | [] => []
  | [l] => [l]
  | l :: l2 :: ls => f l :: mapExceptLast f (l2 :: ls)

/-- The per-display mutation of DisplayAnalyzer::blankSecondaryDevice. -/
def blankContent (blank : Bool) (c : DisplayContent) : DisplayContent :=
  { c with hwLayers := mapExceptLast (blankLayer blank) c.hwLayers }

/-- DisplayAnalyzer::blankSecondaryDevice: every display slot other than
DEVICE_PRIMARY (slot 0) with non-null content has all layers but the
frame-buffer target rewritten according to the blank flag. -/
def blankSecondaries (blank : Bool) : Displays → Displays
  | [] => []
  | c0 :: rest => c0 :: rest.map (Option.map (blankContent blank))

/-- The geometry-forcing loop of DisplayAnalyzer::handleBlankEvent: mark
HWC_GEOMETRY_CHANGED on every non-primary non-null display content. -/
def markGeometryChangedSecondaries : Displays → Displays
  | [] => []
  | c0 :: rest =>
    c0 :: rest.map (Option.map fun c =>
      { c with flags := c.flags ||| HWC_GEOMETRY_CHANGED })

/-- DisplayAnalyzer::handleBlankEvent: store the blank flag, force
geometry changed on the secondary displays and re-apply blanking. -/
def handleBlankEvent (b : Bool) (s : AnalyzerState) (ds : Displays) :
    AnalyzerState × Displays :=
  let s2 := { s with blankDevice := b }
  (s2, blankSecondaries b (markGeometryChangedSecondaries ds))

/-- DisplayAnalyzer::handleVideoEvent: only mVideoPlaying is updated (the
preparing-driven transition is compiled out in the source). -/
def handleVideoEvent (_preparing playing : Bool) (s : AnalyzerState) :
    AnalyzerState :=
  { s with videoPlaying := playing }

/-- Dispatch of one drained event (the switch in handlePendingEvents).
The hotplug handler only pokes the external vsync manager, which has no
analyzer-state effect. -/
def applyEvent (e : Event) (sd : AnalyzerState × Displays) :
    AnalyzerState × Displays :=
  match e with
  | .hotplug _ => sd
  | .blank b => handleBlankEvent b sd.1 sd.2
  | .video p pl => (handleVideoEvent p pl sd.1, sd.2)

/-- The drain loop of DisplayAnalyzer::handlePendingEvents: pop the front
event and apply it until the queue is empty; returns the final state
and the trace of events in application order. -/
def drainApply : List Event → AnalyzerState × Displays →
    (AnalyzerState × Displays) × List Event
  | [], sd => (sd, [])
  | e :: q, sd =>
    let r := drainApply q (applyEvent e sd)
    (r.1, e :: r.2)

/-- DisplayAnalyzer::handlePendingEvents. The C loop removes the front
element before dispatching it and no handler reads or writes the queue,
so draining is processing the queued list front to back with the stored
queue emptied. -/
def handlePendingEvents (s : AnalyzerState) (ds : Displays) :
    (AnalyzerState × Displays) × List Event :=
  drainApply s.pendingEvents ({ s with pendingEvents := [] }, ds)

/-- DisplayAnalyzer::postEvent: append at the tail under the queue lock. -/
def postEvent (e : Event) (s : AnalyzerState) : AnalyzerState :=
  { s with pendingEvents := s.pendingEvents ++ [e] }

/-- Pipeline step markers for the per-frame trace of analyzeContents. -/
inductive Step where
  | install
  | drain
  | blankStep
  | trickDetect
  | extendedDetect
  | release
  deriving DecidableEq

/-- Replace display slot 0 (the write-back of the primary content mutated
by detectTrickMode). -/
def setPrimary (o : Option DisplayContent) : Displays → Displays
  | [] => []
  | _ :: rest => o :: rest

/-- DisplayAnalyzer::analyzeContents: install the snapshot, drain the
event queue, re-assert blanking when the blank flag is set, then (when
extended-mode support is enabled) run detectVideoExtendedMode and, only
when it left mVideoExtendedMode true, detectTrickMode on the primary
display, and finally release the snapshot. Returns the final state and
snapshot together with the ordered trace of pipeline steps taken. -/
def analyzeContents (env : Collaborators) (s : AnalyzerState)
    (ds : Displays) : (AnalyzerState × Displays) × List Step :=
  let r0 := handlePendingEvents s ds
  let s1 := r0.1.1
  let ds1 := r0.1.2
  let ds2 := if s1.blankDevice then blankSecondaries s1.blankDevice ds1 else ds1
  let blankTrace := if s1.blankDevice then [Step.blankStep] else []
  if s1.enableVideoExtendedMode then
    let s3 := detectVideoExtendedMode env s1 ds2
    if s3.videoExtendedMode then
      let r := detectTrickMode s3 (ds2.headD none)
      ((r.1, setPrimary r.2 ds2),
       [Step.install, Step.drain] ++ blankTrace ++
         [Step.extendedDetect, Step.trickDetect, Step.release])
    else
      ((s3, ds2),
       [Step.install, Step.drain] ++ blankTrace ++
         [Step.extendedDetect, Step.release])
  else
    ((s1, ds2),
     [Step.install, Step.drain] ++ blankTrace ++ [Step.release])

/-! ### Concrete sample data used by counterexamples and witnesses -/

/-- Collaborators that answer every query negatively. -/
def envTrivial : Collaborators :=
  { lockFormat := fun _ => none,
    isVideoFormat := fun _ => false,
    modeInfo := none }

/-- Collaborators for a 1920x1080 external mode where buffer handle 5 has
the (video) format 100. -/
def envVideo : Collaborators :=
  { lockFormat := fun h => if h == 5 then some 100 else none,
    isVideoFormat := fun f => f == 100,
    modeInfo := some { hdisplay := 1920, vdisplay := 1080 } }

/-- Same collaborators but the external mode query fails. -/
def envVideoNoMode : Collaborators :=
  { lockFormat := fun h => if h == 5 then some 100 else none,
    isVideoFormat := fun f => f == 100,
    modeInfo := none }

/-- A frame-buffer target layer. -/
def fbtLayer : Layer :=
  { handle := 9, compositionType := HWC_FRAMEBUFFER_TARGET,
    displayFrame := ⟨0, 0, 1920, 1080⟩ }

/-- The primary video layer, full screen, handle 5. -/
def videoLayer : Layer :=
  { handle := 5, displayFrame := ⟨0, 0, 1920, 1080⟩ }

/-- A secondary layer with the video handle covering the full mode. -/
def extFullLayer : Layer :=
  { handle := 5, displayFrame := ⟨0, 0, 1920, 1080⟩ }

/-- A secondary layer with the video handle of size 1919x1079: strictly
smaller than the 1920x1080 mode in both dimensions, but not strictly
smaller than mode minus one. -/
def extAlmostLayer : Layer :=
  { handle := 5, displayFrame := ⟨0, 0, 1919, 1079⟩ }

/-- Primary display content: the video layer plus the target layer, with
geometry changed. -/
def primaryContent : DisplayContent :=
  { hwLayers := [videoLayer, fbtLayer], flags := 1 }

/-- External display content carrying the full-screen video layer. -/
def extContentFull : DisplayContent :=
  { hwLayers := [extFullLayer, fbtLayer], flags := 1 }

/-- External display content carrying the 1919x1079 video layer. -/
def extContentAlmost : DisplayContent :=
  { hwLayers := [extAlmostLayer, fbtLayer], flags := 1 }

/-- A display content with only a target layer and no geometry change. -/
def quietContent : DisplayContent :=
  { hwLayers := [fbtLayer], flags := 0 }

/-- Analyzer state with a video playing and everything else default. -/
def statePlaying : AnalyzerState := { videoPlaying := true }

/-- A layer carrying the trick-mode flag. -/
def trickLayer : Layer :=
  { handle := 3, flags := HWC_TRICK_MODE, compositionType := HWC_OVERLAY,
    displayFrame := ⟨0, 0, 10, 10⟩ }

/-- Primary content whose first layer carries the trick-mode flag. -/
def primTrickContent : DisplayContent :=
  { hwLayers := [trickLayer, fbtLayer], flags := 0 }

/-- A plain secondary layer with skip set and no hints. -/
def plainLayer : Layer :=
  { handle := 7, flags := HWC_SKIP_LAYER, displayFrame := ⟨0, 0, 10, 10⟩ }

/-- Secondary content with two ordinary layers and a target layer. -/
def secContent : DisplayContent :=
  { hwLayers := [plainLayer, { plainLayer with handle := 8 }, fbtLayer],
    flags := 0 }

/-! ### Bit-manipulation helper lemmas -/

theorem geometry_flag_set (n : Nat) :
    (n ||| HWC_GEOMETRY_CHANGED) &&& HWC_GEOMETRY_CHANGED ≠ 0 := by
  have h1 : HWC_GEOMETRY_CHANGED = 2 ^ 0 := rfl
  rw [h1, Nat.and_two_pow, Nat.testBit_lor]
  have h2 : Nat.testBit (2 ^ 0) 0 = true := by decide
  rw [h2]
  simp

theorem clear_fb_flag_set (n : Nat) :
    (n ||| HWC_HINT_CLEAR_FB) &&& HWC_HINT_CLEAR_FB ≠ 0 := by
  have h1 : HWC_HINT_CLEAR_FB = 2 ^ 1 := rfl
  rw [h1, Nat.and_two_pow, Nat.testBit_lor]
  have h2 : Nat.testBit (2 ^ 1) 1 = true := by decide
  rw [h2]
  simp

theorem skip_flag_cleared (n : Nat) :
    (n &&& (UINT32_MASK ^^^ HWC_SKIP_LAYER)) &&& HWC_SKIP_LAYER = 0 := by
  rw [Nat.land_assoc]
  have h1 : (UINT32_MASK ^^^ HWC_SKIP_LAYER) &&& HWC_SKIP_LAYER = 0 := by decide
  rw [h1]
  simp

theorem clear_fb_flag_cleared (n : Nat) :
    (n &&& (UINT32_MASK ^^^ HWC_HINT_CLEAR_FB)) &&& HWC_HINT_CLEAR_FB = 0 := by
  rw [Nat.land_assoc]
  have h1 : (UINT32_MASK ^^^ HWC_HINT_CLEAR_FB) &&& HWC_HINT_CLEAR_FB = 0 := by
    decide
  rw [h1]
  simp

/-! ### List helper lemmas -/

theorem mapExceptLast_dropLast (f : Layer → Layer) (ls : List Layer) :
    (mapExceptLast f ls).dropLast = ls.dropLast.map f := by
  induction ls with
  | nil => rfl
  | cons a tl ih =>
    cases tl with
    | nil => rfl
    | cons b tl2 =>
      simp only [mapExceptLast, List.dropLast_cons₂, List.map_cons] at *
      rw [← ih]
      cases tl2 <;> simp only [mapExceptLast, List.dropLast_cons₂,
        List.dropLast_single, List.dropLast_nil]

theorem mapExceptLast_getLast? (f : Layer → Layer) (ls : List Layer) :
    (mapExceptLast f ls).getLast? = ls.getLast? := by
  induction ls with
  | nil => rfl
  | cons a tl ih =>
    cases tl with
    | nil => rfl
    | cons b tl2 =>
      simp only [mapExceptLast]
      rw [List.getLast?_cons_cons]
      cases tl2 with
      | nil => rfl
      | cons c tl3 =>
        simp only [mapExceptLast] at ih ⊢
        rw [List.getLast?_cons_cons, ih, List.getLast?_cons_cons]

theorem countActive_cons (o : Option DisplayContent) (l : Displays) :
    countActive (o :: l) = (o.elim 0 fun _ => 1) + countActive l := by
  cases o with
  | none => simp [countActive, List.filterMap_cons]
  | some c =>
    simp [countActive, List.filterMap_cons]
    omega

theorem countActive_map_optionMap (f : DisplayContent → DisplayContent)
    (l : Displays) : countActive (l.map (Option.map f)) = countActive l := by
  induction l with
  | nil => rfl
  | cons o tl ih =>
    cases o <;> simp only [List.map_cons, Option.map_none, Option.map_some,
      countActive_cons, ih] <;> rfl

theorem countActive_blankSecondaries (b : Bool) (ds : Displays) :
    countActive (blankSecondaries b ds) = countActive ds := by
  cases ds with
  | nil => rfl
  | cons c0 rest =>
    simp only [blankSecondaries, countActive_cons, countActive_map_optionMap]

theorem countActive_markGeometry (ds : Displays) :
    countActive (markGeometryChangedSecondaries ds) = countActive ds := by
  cases ds with
  | nil => rfl
  | cons c0 rest =>
    simp only [markGeometryChangedSecondaries, countActive_cons,
      countActive_map_optionMap]

theorem anyGeometryChanged_cons (o : Option DisplayContent) (l : Displays) :
    anyGeometryChanged (o :: l) =
      ((match o with
        | none => false
        | some c => c.flags &&& HWC_GEOMETRY_CHANGED != 0) ||
       anyGeometryChanged l) := by
  simp [anyGeometryChanged]

theorem anyGeometryChanged_blankSecondaries (b : Bool) (ds : Displays) :
    anyGeometryChanged (blankSecondaries b ds) = anyGeometryChanged ds := by
  cases ds with
  | nil => rfl
  | cons c0 rest =>
    simp only [blankSecondaries, anyGeometryChanged_cons]
    congr 1
    induction rest with
    | nil => rfl
    | cons o tl ih =>
      cases o <;>
        simp only [List.map_cons, Option.map_none, Option.map_some,
          anyGeometryChanged_cons, ih] <;> rfl

/-! ### Event and drain helper lemmas -/

theorem applyEvent_enable (e : Event) (sd : AnalyzerState × Displays) :
    (applyEvent e sd).1.enableVideoExtendedMode =
      sd.1.enableVideoExtendedMode := by
  cases e <;> rfl

theorem applyEvent_pending (e : Event) (sd : AnalyzerState × Displays) :
    (applyEvent e sd).1.pendingEvents = sd.1.pendingEvents := by
  cases e <;> rfl

theorem applyEvent_countActive (e : Event) (sd : AnalyzerState × Displays) :
    countActive (applyEvent e sd).2 = countActive sd.2 := by
  cases e with
  | hotplug c => rfl
  | video p pl => rfl
  | blank b =>
    simp only [applyEvent, handleBlankEvent, countActive_blankSecondaries,
      countActive_markGeometry]

theorem drainApply_trace (q : List Event) (sd : AnalyzerState × Displays) :
    (drainApply q sd).2 = q := by
  induction q generalizing sd with
  | nil => rfl
  | cons e q ih => simp [drainApply, ih]

theorem drainApply_fst (q : List Event) (sd : AnalyzerState × Displays) :
    (drainApply q sd).1 = q.foldl (fun sd e => applyEvent e sd) sd := by
  induction q generalizing sd with
  | nil => rfl
  | cons e q ih => simp [drainApply, ih, List.foldl_cons]

theorem drainApply_enable (q : List Event) (sd : AnalyzerState × Displays) :
    (drainApply q sd).1.1.enableVideoExtendedMode =
      sd.1.enableVideoExtendedMode := by
  induction q generalizing sd with
  | nil => rfl
  | cons e q ih => simp [drainApply, ih, applyEvent_enable]

theorem drainApply_pending (q : List Event) (sd : AnalyzerState × Displays) :
    (drainApply q sd).1.1.pendingEvents = sd.1.pendingEvents := by
  induction q generalizing sd with
  | nil => rfl
  | cons e q ih => simp [drainApply, ih, applyEvent_pending]

theorem drainApply_countActive (q : List Event) (sd : AnalyzerState × Displays) :
    countActive (drainApply q sd).1.2 = countActive sd.2 := by
  induction q generalizing sd with
  | nil => rfl
  | cons e q ih => simp [drainApply, ih, applyEvent_countActive]

theorem foldl_postEvent_pending (es : List Event) (s : AnalyzerState) :
    (es.foldl (fun a e => postEvent e a) s).pendingEvents =
      s.pendingEvents ++ es := by
  induction es generalizing s with
  | nil => simp
  | cons e es ih =>
    rw [List.foldl_cons, ih, postEvent]
    simp

/-! ### Detector helper lemmas -/

theorem resetTrickLayer_fst (ls : List Layer) :
    (resetTrickLayer ls).1 =
      ls.any fun l => l.flags &&& HWC_TRICK_MODE != 0 := by
  induction ls with
  | nil => rfl
  | cons l ls ih =>
    simp only [resetTrickLayer, List.any_cons]
    split
    · next h => simp [h]
    · next h =>
      simp only [Bool.not_eq_true] at h
      simp [h, ih]

theorem detectTrickMode_extMode (s : AnalyzerState) (o : Option DisplayContent) :
    (detectTrickMode s o).1.videoExtendedMode = s.videoExtendedMode := by
  cases o with
  | none => rfl
  | some c =>
    simp only [detectTrickMode]
    split <;> rfl

theorem detect_extMode_false_of_few (env : Collaborators) (s : AnalyzerState)
    (ds : Displays) (h : countActive ds ≤ 1) :
    (detectVideoExtendedMode env s ds).videoExtendedMode = false := by
  by_cases hv : s.videoPlaying
  · simp [detectVideoExtendedMode, hv, h]
  · simp [detectVideoExtendedMode, hv]

theorem detect_no_geometry (env : Collaborators) (s : AnalyzerState)
    (ds : Displays) (hv : s.videoPlaying = true)
    (hact : 2 ≤ countActive ds) (hgeo : anyGeometryChanged ds = false) :
    detectVideoExtendedMode env s ds = s := by
  have hle : ¬ countActive ds ≤ 1 := by omega
  simp [detectVideoExtendedMode, hv, hle, hgeo]

theorem detect_match (env : Collaborators) (s : AnalyzerState)
    (content : DisplayContent) (rest : Displays) (h : Nat) (layer : Layer)
    (hvp : s.videoPlaying = true)
    (hact : 2 ≤ countActive (some content :: rest))
    (hgeo : anyGeometryChanged (some content :: rest) = true)
    (hfind : findVideoHandle env content.hwLayers = some h)
    (hmatch : findHandleMatch h rest = some layer) :
    (detectVideoExtendedMode env s (some content :: rest)).videoExtendedMode =
      !isVideoEmbedded env layer := by
  have hle : ¬ countActive (some content :: rest) ≤ 1 := by omega
  simp only [detectVideoExtendedMode, hvp, Bool.not_true, Bool.false_eq_true,
    if_false, hle, if_false, hgeo, Bool.not_false, if_true, hfind, hmatch]
  cases hemb : isVideoEmbedded env layer <;> simp [hemb]

theorem detect_not_playing (env : Collaborators) (s : AnalyzerState)
    (ds : Displays) (hv : s.videoPlaying = false) :
    detectVideoExtendedMode env s ds =
      { s with videoExtendedMode := false, forceCloneMode := false } := by
  simp [detectVideoExtendedMode, hv]

theorem analyze_extMode_eq_detect (env : Collaborators) (s : AnalyzerState)
    (ds : Displays) (hen : s.enableVideoExtendedMode = true) :
    (analyzeContents env s ds).1.1.videoExtendedMode =
      (detectVideoExtendedMode env (handlePendingEvents s ds).1.1
        (if (handlePendingEvents s ds).1.1.blankDevice = true
          then blankSecondaries true (handlePendingEvents s ds).1.2
          else (handlePendingEvents s ds).1.2)).videoExtendedMode := by
  have he1 : (handlePendingEvents s ds).1.1.enableVideoExtendedMode = true := by
    rw [handlePendingEvents, drainApply_enable]
    exact hen
  by_cases hb : (handlePendingEvents s ds).1.1.blankDevice = true
  · simp only [analyzeContents, he1, hb, if_true]
    split
    · rw [detectTrickMode_extMode]
    · rfl
  · simp only [analyzeContents, he1, hb, Bool.false_eq_true, if_true, if_false]
    split
    · rw [detectTrickMode_extMode]
    · rfl

/-! ### Claim theorems -/

/-- C1 counterexample: the claim quantifies over every analyze call and
every prior sticky value, but when extended-mode support is disabled the
detector never runs, so a sticky true videoExtendedMode survives a frame
with a single active display. -/
theorem C1_counterexample :
    ({ enableVideoExtendedMode := false, videoExtendedMode := true,
       videoPlaying := true : AnalyzerState }).videoExtendedMode = true ∧
    countActive [some primaryContent] = 1 ∧
    (analyzeContents envVideo
      { enableVideoExtendedMode := false, videoExtendedMode := true,
        videoPlaying := true }
      [some primaryContent]).1.1.videoExtendedMode = true :=
  ⟨rfl, rfl, rfl⟩

/-- C1 (amended): for every analyze call made while extended-mode support
is enabled, after the call videoExtendedMode is false whenever fewer than
2 display slots hold non-null DisplayContent in that frame's snapshot,
regardless of the prior sticky value. -/
theorem C1_few_displays_clear_extended_mode (env : Collaborators)
    (s : AnalyzerState) (ds : Displays)
    (hen : s.enableVideoExtendedMode = true)
    (hact : countActive ds ≤ 1) :
    (analyzeContents env s ds).1.1.videoExtendedMode = false := by
  have ha1 : countActive (handlePendingEvents s ds).1.2 ≤ 1 := by
    rw [handlePendingEvents, drainApply_countActive]
    exact hact
  rw [analyze_extMode_eq_detect env s ds hen]
  by_cases hb : (handlePendingEvents s ds).1.1.blankDevice = true
  · rw [if_pos hb]
    exact detect_extMode_false_of_few env _ _
      (by rw [countActive_blankSecondaries]; exact ha1)
  · rw [if_neg hb]
    exact detect_extMode_false_of_few env _ _ ha1

/-- C1 witness: a single active display with a previously true sticky flag
and support enabled ends the frame with videoExtendedMode false. -/
theorem C1_witness :
    (analyzeContents envVideo
      { videoExtendedMode := true, videoPlaying := true }
      [some primaryContent]).1.1.videoExtendedMode = false :=
  C1_few_displays_clear_extended_mode envVideo
    { videoExtendedMode := true, videoPlaying := true }
    [some primaryContent] rfl (by decide)

/-- C2 counterexample: a matched layer of 1919x1079 on a 1920x1080 mode is
strictly smaller than the mode resolution in both dimensions, so the claim
calls it embedded, yet the code classifies it as not embedded (the source
compares against the mode resolution minus one) and engages extended mode
on that frame. -/
theorem C2_counterexample :
    isVideoEmbeddedSpec envVideo extAlmostLayer = true ∧
    isVideoEmbedded envVideo extAlmostLayer = false ∧
    (analyzeContents envVideo statePlaying
      [some primaryContent, some extContentAlmost]).1.1.videoExtendedMode =
      true :=
  ⟨rfl, rfl, rfl⟩

/-- C2 (amended): in extended-mode detection, the matched layer counts as
embedded (and extended mode is not engaged) exactly when its destination
rectangle is strictly smaller than the external mode resolution minus one
in both dimensions; otherwise videoExtendedMode is set to true. -/
theorem C2_embedded_threshold (env : Collaborators) (mode : ModeInfo)
    (s : AnalyzerState) (content : DisplayContent) (rest : Displays)
    (h : Nat) (layer : Layer)
    (hmode : env.modeInfo = some mode)
    (hvp : s.videoPlaying = true)
    (hact : 2 ≤ countActive (some content :: rest))
    (hgeo : anyGeometryChanged (some content :: rest) = true)
    (hfind : findVideoHandle env content.hwLayers = some h)
    (hmatch : findHandleMatch h rest = some layer) :
    ((detectVideoExtendedMode env s
        (some content :: rest)).videoExtendedMode =
      !isVideoEmbedded env layer) ∧
    (isVideoEmbedded env layer = true ↔
      (layer.displayFrame.right - layer.displayFrame.left <
         (mode.hdisplay : Int) - 1 ∧
       layer.displayFrame.bottom - layer.displayFrame.top <
         (mode.vdisplay : Int) - 1)) := by
  refine ⟨detect_match env s content rest h layer hvp hact hgeo hfind hmatch,
    ?_⟩
  simp [isVideoEmbedded, hmode]

/-- C2 witness: the full-screen matched layer is not embedded and extended
mode is engaged. -/
theorem C2_witness :
    ((detectVideoExtendedMode envVideo statePlaying
        [some primaryContent, some extContentFull]).videoExtendedMode =
      !isVideoEmbedded envVideo extFullLayer) ∧
    (isVideoEmbedded envVideo extFullLayer = true ↔
      (extFullLayer.displayFrame.right - extFullLayer.displayFrame.left <
         (((1920 : Nat) : Int)) - 1 ∧
       extFullLayer.displayFrame.bottom - extFullLayer.displayFrame.top <
         (((1080 : Nat) : Int)) - 1)) :=
  C2_embedded_threshold envVideo { hdisplay := 1920, vdisplay := 1080 }
    statePlaying primaryContent [some extContentFull] 5 extFullLayer
    rfl rfl (by decide) rfl rfl rfl

/-- C3: the effective extended-mode decision exposed to callers equals
videoExtendedMode AND NOT forceCloneMode, so whenever trick mode is
currently detected the decision is false. -/
theorem C3_effective_decision (s : AnalyzerState) :
    checkVideoExtendedMode s = (s.videoExtendedMode && !s.forceCloneMode) ∧
    (s.forceCloneMode = true → checkVideoExtendedMode s = false) := by
  refine ⟨rfl, fun h => ?_⟩
  simp [checkVideoExtendedMode, h]

/-- C3 witness: with the clone override active the decision is false even
though the extended-mode flag is true. -/
theorem C3_witness :
    checkVideoExtendedMode
      { videoExtendedMode := true, forceCloneMode := true } = false :=
  (C3_effective_decision
    { videoExtendedMode := true, forceCloneMode := true }).2 rfl

/-- C4 counterexample: a frame with no geometry change but with video
playback stopped resets the sticky true decision to false, so the
decision is not retained on every geometry-quiet frame. -/
theorem C4_counterexample :
    anyGeometryChanged [some quietContent, some quietContent] = false ∧
    ({ videoExtendedMode := true : AnalyzerState }).videoExtendedMode =
      true ∧
    (analyzeContents envTrivial { videoExtendedMode := true }
      [some quietContent, some quietContent]).1.1.videoExtendedMode =
      false :=
  ⟨rfl, rfl, rfl⟩

/-- C4 (amended): for every analyze call with an empty pending-event
queue in which video is playing, at least two displays are active and no
active display reports a geometry change, the previous videoExtendedMode
value is retained. -/
theorem C4_no_geometry_retains_decision (env : Collaborators)
    (s : AnalyzerState) (ds : Displays)
    (hq : s.pendingEvents = [])
    (hv : s.videoPlaying = true)
    (hact : 2 ≤ countActive ds)
    (hgeo : anyGeometryChanged ds = false) :
    (analyzeContents env s ds).1.1.videoExtendedMode =
      s.videoExtendedMode := by
  have hpe : handlePendingEvents s ds =
      (({ s with pendingEvents := [] }, ds), []) := by
    rw [handlePendingEvents, hq]
    rfl
  by_cases hen : s.enableVideoExtendedMode = true
  · rw [analyze_extMode_eq_detect env s ds hen, hpe]
    dsimp only
    have hv1 : ({ s with pendingEvents := [] } :
        AnalyzerState).videoPlaying = true := hv
    by_cases hb : s.blankDevice = true
    · rw [if_pos hb]
      rw [detect_no_geometry env { s with pendingEvents := [] }
        (blankSecondaries true ds) hv1
        (by rw [countActive_blankSecondaries]; exact hact)
        (by rw [anyGeometryChanged_blankSecondaries]; exact hgeo)]
    · rw [if_neg hb]
      rw [detect_no_geometry env { s with pendingEvents := [] } ds hv1
        hact hgeo]
  · simp only [analyzeContents, hpe]
    rw [if_neg hen]

/-- C4 witness: a quiet two-display frame with video playing keeps the
sticky true decision. -/
theorem C4_witness :
    (analyzeContents envTrivial
      { videoExtendedMode := true, videoPlaying := true }
      [some quietContent, some quietContent]).1.1.videoExtendedMode =
      ({ videoExtendedMode := true, videoPlaying := true :
         AnalyzerState }).videoExtendedMode :=
  C4_no_geometry_retains_decision envTrivial
    { videoExtendedMode := true, videoPlaying := true }
    [some quietContent, some quietContent] rfl rfl (by decide) rfl

/-- C5: starting from an empty queue, posting a sequence of events and
then draining applies exactly that sequence, in FIFO post order, as one
fold of the event dispatcher, and leaves the queue empty: the drain trace
equals the posted sequence, so no event is dropped, duplicated or
reordered. -/
theorem C5_fifo_drain (s : AnalyzerState) (ds : Displays)
    (es : List Event) (hq : s.pendingEvents = []) :
    (handlePendingEvents (es.foldl (fun a e => postEvent e a) s) ds).2 =
      es ∧
    (handlePendingEvents (es.foldl (fun a e => postEvent e a) s)
      ds).1.1.pendingEvents = [] ∧
    (handlePendingEvents (es.foldl (fun a e => postEvent e a) s) ds).1 =
      es.foldl (fun sd e => applyEvent e sd)
        ({ es.foldl (fun a e => postEvent e a) s with
            pendingEvents := [] }, ds) := by
  have hp : (es.foldl (fun a e => postEvent e a) s).pendingEvents = es := by
    rw [foldl_postEvent_pending, hq]
    rfl
  refine ⟨?_, ?_, ?_⟩
  · rw [handlePendingEvents, drainApply_trace, hp]
  · rw [handlePendingEvents, drainApply_pending]
  · rw [handlePendingEvents, drainApply_fst, hp]

/-- C5 witness: a concrete four-event sequence drains in post order into
an empty queue. -/
theorem C5_witness :
    (handlePendingEvents
      ([Event.video false true, Event.blank true, Event.hotplug true,
        Event.blank false].foldl (fun a e => postEvent e a) {}) []).2 =
      [Event.video false true, Event.blank true, Event.hotplug true,
       Event.blank false] ∧
    (handlePendingEvents
      ([Event.video false true, Event.blank true, Event.hotplug true,
        Event.blank false].foldl (fun a e => postEvent e a) {})
      []).1.1.pendingEvents = [] ∧
    (handlePendingEvents
      ([Event.video false true, Event.blank true, Event.hotplug true,
        Event.blank false].foldl (fun a e => postEvent e a) {}) []).1 =
      [Event.video false true, Event.blank true, Event.hotplug true,
        Event.blank false].foldl (fun sd e => applyEvent e sd)
        ({ [Event.video false true, Event.blank true, Event.hotplug true,
            Event.blank false].foldl (fun a e => postEvent e a) {} with
            pendingEvents := [] }, []) :=
  C5_fifo_drain {} []
    [Event.video false true, Event.blank true, Event.hotplug true,
     Event.blank false] rfl

/-- C6: trick-mode detection is edge-triggered. When the detected boolean
(some primary layer carries the trick-mode flag) equals the stored
forceCloneMode, the analyzer state is unchanged and the display flag word
is unchanged; when it differs, forceCloneMode is updated to the detected
value and the geometry-changed flag is set on the primary display. -/
theorem C6_trick_mode_edge_triggered (s : AnalyzerState)
    (c : DisplayContent) :
    ((c.hwLayers.any fun l => l.flags &&& HWC_TRICK_MODE != 0) =
        s.forceCloneMode →
      (detectTrickMode s (some c)).1 = s ∧
      ∃ c2, (detectTrickMode s (some c)).2 = some c2 ∧
        c2.flags = c.flags) ∧
    ((c.hwLayers.any fun l => l.flags &&& HWC_TRICK_MODE != 0) ≠
        s.forceCloneMode →
      (detectTrickMode s (some c)).1 =
        { s with forceCloneMode :=
            c.hwLayers.any fun l => l.flags &&& HWC_TRICK_MODE != 0 } ∧
      ∃ c2, (detectTrickMode s (some c)).2 = some c2 ∧
        c2.flags = c.flags ||| HWC_GEOMETRY_CHANGED ∧
        c2.flags &&& HWC_GEOMETRY_CHANGED ≠ 0) := by
  have hd := resetTrickLayer_fst c.hwLayers
  constructor
  · intro h
    rw [← hd] at h
    have heq : detectTrickMode s (some c) =
        (s, some { hwLayers := (resetTrickLayer c.hwLayers).2,
                   flags := c.flags }) := by
      simp only [detectTrickMode, h, bne_self_eq_false, Bool.false_eq_true,
        if_false]
    rw [heq]
    exact ⟨rfl, _, rfl, rfl⟩
  · intro h
    rw [← hd] at h
    have hbne : ((resetTrickLayer c.hwLayers).1 != s.forceCloneMode) =
        true := bne_iff_ne.mpr h
    have heq : detectTrickMode s (some c) =
        ({ s with forceCloneMode := (resetTrickLayer c.hwLayers).1 },
         some { hwLayers := (resetTrickLayer c.hwLayers).2,
                flags := c.flags ||| HWC_GEOMETRY_CHANGED }) := by
      simp only [detectTrickMode, hbne, if_true]
    rw [heq, hd]
    exact ⟨rfl, _, rfl, rfl, geometry_flag_set _⟩

/-- C6 witness: the same trick-flagged frame toggles forceCloneMode and
marks geometry changed on the first call, and leaves both the state and
the flag word unchanged on the second call. -/
theorem C6_witness :
    ((detectTrickMode {} (some primTrickContent)).1 =
      { ({} : AnalyzerState) with forceCloneMode :=
          primTrickContent.hwLayers.any fun l =>
            l.flags &&& HWC_TRICK_MODE != 0 } ∧
     ∃ c2, (detectTrickMode {} (some primTrickContent)).2 = some c2 ∧
       c2.flags = primTrickContent.flags ||| HWC_GEOMETRY_CHANGED ∧
       c2.flags &&& HWC_GEOMETRY_CHANGED ≠ 0) ∧
    ((detectTrickMode { forceCloneMode := true }
        (some primTrickContent)).1 = { forceCloneMode := true } ∧
     ∃ c2, (detectTrickMode { forceCloneMode := true }
        (some primTrickContent)).2 = some c2 ∧
       c2.flags = primTrickContent.flags) :=
  ⟨(C6_trick_mode_edge_triggered {} primTrickContent).2 (by decide),
   (C6_trick_mode_edge_triggered { forceCloneMode := true }
     primTrickContent).1 (by decide)⟩

/-- C7: under blank handling, every non-primary display with non-null
content has each layer except the last (frame-buffer target) rewritten:
when blanking, the clear-framebuffer hint is set, the skip flag cleared
and the composition type forced to overlay; when un-blanking, the hint is
cleared and the composition type forced back to framebuffer. The primary
slot and the frame-buffer target layer are untouched. -/
theorem C7_blank_rewrites_secondaries (b : Bool)
    (c0 : Option DisplayContent) (rest : Displays) (i : Nat)
    (c : DisplayContent) (hc : rest[i]? = some (some c)) :
    (blankSecondaries b (c0 :: rest))[0]? = some c0 ∧
    (blankSecondaries b (c0 :: rest))[i + 1]? =
      some (some (blankContent b c)) ∧
    (blankContent b c).hwLayers.getLast? = c.hwLayers.getLast? ∧
    ∀ l ∈ (blankContent b c).hwLayers.dropLast,
      (b = true → l.hints &&& HWC_HINT_CLEAR_FB ≠ 0 ∧
        l.flags &&& HWC_SKIP_LAYER = 0 ∧
        l.compositionType = HWC_OVERLAY) ∧
      (b = false → l.hints &&& HWC_HINT_CLEAR_FB = 0 ∧
        l.compositionType = HWC_FRAMEBUFFER) := by
  refine ⟨List.getElem?_cons_zero, ?_, mapExceptLast_getLast? _ _, ?_⟩
  · show (c0 :: rest.map (Option.map (blankContent b)))[i + 1]? = _
    rw [List.getElem?_cons_succ,
      List.getElem?_map (Option.map (blankContent b)) rest i, hc]
    rfl
  · intro l hl
    rw [show (blankContent b c).hwLayers = mapExceptLast (blankLayer b)
          c.hwLayers from rfl,
        mapExceptLast_dropLast] at hl
    obtain ⟨l0, _, rfl⟩ := List.mem_map.mp hl
    cases b with
    | true =>
      refine ⟨fun _ => ?_, fun hfalse => (by cases hfalse)⟩
      show ((l0.hints ||| HWC_HINT_CLEAR_FB) &&& HWC_HINT_CLEAR_FB ≠ 0) ∧
        ((l0.flags &&& (UINT32_MASK ^^^ HWC_SKIP_LAYER)) &&&
          HWC_SKIP_LAYER = 0) ∧ HWC_OVERLAY = HWC_OVERLAY
      exact ⟨clear_fb_flag_set _, skip_flag_cleared _, rfl⟩
    | false =>
      refine ⟨fun htrue => (by cases htrue), fun _ => ?_⟩
      show ((l0.hints &&& (UINT32_MASK ^^^ HWC_HINT_CLEAR_FB)) &&&
        HWC_HINT_CLEAR_FB = 0) ∧ HWC_FRAMEBUFFER = HWC_FRAMEBUFFER
      exact ⟨clear_fb_flag_cleared _, rfl⟩

/-- C7 witness: a two-display frame with a two-layer secondary shows the
blanking rewrite on both ordinary layers, an untouched target layer and
an untouched primary slot, for blanking and for un-blanking. -/
theorem C7_witness :
    ((blankSecondaries true [some primaryContent, some secContent])[0]? =
      some (some primaryContent) ∧
     (blankSecondaries true [some primaryContent, some secContent])[1]? =
      some (some (blankContent true secContent)) ∧
     (blankContent true secContent).hwLayers.getLast? =
      secContent.hwLayers.getLast? ∧
     ∀ l ∈ (blankContent true secContent).hwLayers.dropLast,
      (true = true → l.hints &&& HWC_HINT_CLEAR_FB ≠ 0 ∧
        l.flags &&& HWC_SKIP_LAYER = 0 ∧
        l.compositionType = HWC_OVERLAY) ∧
      (true = false → l.hints &&& HWC_HINT_CLEAR_FB = 0 ∧
        l.compositionType = HWC_FRAMEBUFFER)) ∧
    ((blankSecondaries false [some primaryContent, some secContent])[1]? =
      some (some (blankContent false secContent)) ∧
     ∀ l ∈ (blankContent false secContent).hwLayers.dropLast,
      (false = true → l.hints &&& HWC_HINT_CLEAR_FB ≠ 0 ∧
        l.flags &&& HWC_SKIP_LAYER = 0 ∧
        l.compositionType = HWC_OVERLAY) ∧
      (false = false → l.hints &&& HWC_HINT_CLEAR_FB = 0 ∧
        l.compositionType = HWC_FRAMEBUFFER)) := by
  have h1 := C7_blank_rewrites_secondaries true (some primaryContent)
    [some secContent] 0 secContent rfl
  have h2 := C7_blank_rewrites_secondaries false (some primaryContent)
    [some secContent] 0 secContent rfl
  exact ⟨⟨h1.1, h1.2.1, h1.2.2.1, h1.2.2.2⟩, ⟨h2.2.1, h2.2.2.2⟩⟩

/-- C8 counterexample: on a frame where the external mode-info query
fails, the matched layer is treated as not embedded, so videoExtendedMode
IS set to true, contradicting the claim that it is not. -/
theorem C8_counterexample :
    envVideoNoMode.modeInfo = none ∧
    (analyzeContents envVideoNoMode statePlaying
      [some primaryContent, some extContentFull]).1.1.videoExtendedMode =
      true :=
  ⟨rfl, rfl⟩

/-- C8 (amended): collaborator query failures are treated as negative
answers to the individual query: a layer whose buffer cannot be locked is
not classified as a video layer, and a failed mode-info query makes the
embedded check answer false, which therefore sets videoExtendedMode to
true for the matched layer on that frame. -/
theorem C8_collaborator_failures (env : Collaborators) (l1 l2 : Layer)
    (s : AnalyzerState) (content : DisplayContent) (rest : Displays)
    (h : Nat) (layer : Layer)
    (hlock : env.lockFormat l1.handle = none)
    (hmode : env.modeInfo = none)
    (hvp : s.videoPlaying = true)
    (hact : 2 ≤ countActive (some content :: rest))
    (hgeo : anyGeometryChanged (some content :: rest) = true)
    (hfind : findVideoHandle env content.hwLayers = some h)
    (hmatch : findHandleMatch h rest = some layer) :
    isVideoLayer env l1 = false ∧
    isVideoEmbedded env l2 = false ∧
    (detectVideoExtendedMode env s
      (some content :: rest)).videoExtendedMode = true := by
  have hemb : isVideoEmbedded env layer = false := by
    simp [isVideoEmbedded, hmode]
  refine ⟨?_, ?_, ?_⟩
  · simp [isVideoLayer, hlock]
  · simp [isVideoEmbedded, hmode]
  · rw [detect_match env s content rest h layer hvp hact hgeo hfind hmatch,
      hemb]
    rfl

/-- C8 witness: with the mode query failing, the lock failure on an
unknown handle is a negative video classification and the matched frame
ends with extended mode engaged. -/
theorem C8_witness :
    isVideoLayer envVideoNoMode plainLayer = false ∧
    isVideoEmbedded envVideoNoMode extFullLayer = false ∧
    (detectVideoExtendedMode envVideoNoMode statePlaying
      [some primaryContent, some extContentFull]).videoExtendedMode =
      true :=
  C8_collaborator_failures envVideoNoMode plainLayer extFullLayer
    statePlaying primaryContent [some extContentFull] 5 extFullLayer
    rfl rfl rfl (by decide) rfl rfl rfl

/-- C9 counterexample: on a concrete enabled frame both detectors run,
and the trace places extended-mode detection strictly before trick-mode
detection, contradicting the claimed order. -/
theorem C9_counterexample :
    statePlaying.enableVideoExtendedMode = true ∧
    (analyzeContents envVideo statePlaying
      [some primaryContent, some extContentFull]).2 =
      [Step.install, Step.drain, Step.extendedDetect, Step.trickDetect,
       Step.release] ∧
    (analyzeContents envVideo statePlaying
      [some primaryContent, some extContentFull]).2.indexOf
        Step.extendedDetect <
      (analyzeContents envVideo statePlaying
        [some primaryContent, some extContentFull]).2.indexOf
        Step.trickDetect := by
  refine ⟨rfl, rfl, by decide⟩

/-- C9 (amended): in every analyze call with extended-mode support
enabled, the pipeline runs snapshot install, event-queue drain, blank
handling when the blank flag is set, then extended-mode detection, and
then trick-mode detection exactly when the detection left
videoExtendedMode true; whenever trick-mode detection runs it runs
strictly after extended-mode detection, and the trace starts with the
install step and ends with the release step. -/
theorem C9_pipeline_order (env : Collaborators) (s : AnalyzerState)
    (ds : Displays) (hen : s.enableVideoExtendedMode = true) :
    Step.extendedDetect ∈ (analyzeContents env s ds).2 ∧
    (Step.trickDetect ∈ (analyzeContents env s ds).2 ↔
      (analyzeContents env s ds).1.1.videoExtendedMode = true) ∧
    (Step.trickDetect ∈ (analyzeContents env s ds).2 →
      (analyzeContents env s ds).2.indexOf Step.extendedDetect <
        (analyzeContents env s ds).2.indexOf Step.trickDetect) ∧
    (analyzeContents env s ds).2.head? = some Step.install ∧
    (analyzeContents env s ds).2.getLast? = some Step.release := by
  have he1 : (handlePendingEvents s ds).1.1.enableVideoExtendedMode =
      true := by
    rw [handlePendingEvents, drainApply_enable]
    exact hen
  by_cases hb : (handlePendingEvents s ds).1.1.blankDevice = true
  · by_cases hx : (detectVideoExtendedMode env
        (handlePendingEvents s ds).1.1
        (blankSecondaries true
          (handlePendingEvents s ds).1.2)).videoExtendedMode = true
    · simp only [analyzeContents, he1, hb, hx, eq_self_iff_true, if_true]
      exact ⟨by decide, by simp [detectTrickMode_extMode, hx],
        fun _ => by decide, by decide, by decide⟩
    · simp only [analyzeContents, he1, hb, hx, eq_self_iff_true, if_true,
        Bool.false_eq_true, if_false]
      exact ⟨by decide, by simp [hx], by decide, by decide, by decide⟩
  · by_cases hx : (detectVideoExtendedMode env
        (handlePendingEvents s ds).1.1
        (handlePendingEvents s ds).1.2).videoExtendedMode = true
    · simp only [analyzeContents, he1, hb, hx, eq_self_iff_true, if_true,
        Bool.false_eq_true, if_false]
      exact ⟨by decide, by simp [detectTrickMode_extMode, hx],
        fun _ => by decide, by decide, by decide⟩
    · simp only [analyzeContents, he1, hb, hx, eq_self_iff_true, if_true,
        Bool.false_eq_true, if_false]
      exact ⟨by decide, by simp [hx], by decide, by decide, by decide⟩

/-- C9 witness: the claim-side order facts hold on the concrete
two-display video frame. -/
theorem C9_witness :
    Step.extendedDetect ∈ (analyzeContents envVideo statePlaying
      [some primaryContent, some extContentFull]).2 ∧
    (Step.trickDetect ∈ (analyzeContents envVideo statePlaying
        [some primaryContent, some extContentFull]).2 ↔
      (analyzeContents envVideo statePlaying
        [some primaryContent, some extContentFull]).1.1.videoExtendedMode =
        true) ∧
    (Step.trickDetect ∈ (analyzeContents envVideo statePlaying
        [some primaryContent, some extContentFull]).2 →
      (analyzeContents envVideo statePlaying
        [some primaryContent, some extContentFull]).2.indexOf
          Step.extendedDetect <
        (analyzeContents envVideo statePlaying
          [some primaryContent, some extContentFull]).2.indexOf
          Step.trickDetect) ∧
    (analyzeContents envVideo statePlaying
      [some primaryContent, some extContentFull]).2.head? =
      some Step.install ∧
    (analyzeContents envVideo statePlaying
      [some primaryContent, some extContentFull]).2.getLast? =
      some Step.release :=
  C9_pipeline_order envVideo statePlaying
    [some primaryContent, some extContentFull] rfl

/-- C10: for every analyze call with extended-mode support enabled in
which videoPlaying is false at detection time (that is, after the event
queue has been drained, whatever the queue held on entry), the call ends
with both videoExtendedMode and forceCloneMode false and never runs
trick-mode detection. -/
theorem C10_video_stopped_clears_modes (env : Collaborators)
    (s : AnalyzerState) (ds : Displays)
    (hen : s.enableVideoExtendedMode = true)
    (hv : (handlePendingEvents s ds).1.1.videoPlaying = false) :
    (analyzeContents env s ds).1.1.videoExtendedMode = false ∧
    (analyzeContents env s ds).1.1.forceCloneMode = false ∧
    Step.trickDetect ∉ (analyzeContents env s ds).2 := by
  have he1 : (handlePendingEvents s ds).1.1.enableVideoExtendedMode =
      true := by
    rw [handlePendingEvents, drainApply_enable]
    exact hen
  by_cases hb : (handlePendingEvents s ds).1.1.blankDevice = true
  · have hdet := detect_not_playing env (handlePendingEvents s ds).1.1
      (blankSecondaries true (handlePendingEvents s ds).1.2) hv
    simp only [analyzeContents, he1, hb, eq_self_iff_true, if_true, hdet,
      Bool.false_eq_true, if_false]
    exact ⟨trivial, trivial, by decide⟩
  · have hdet := detect_not_playing env (handlePendingEvents s ds).1.1
      (handlePendingEvents s ds).1.2 hv
    simp only [analyzeContents, he1, hb, eq_self_iff_true, if_true, hdet,
      Bool.false_eq_true, if_false]
    exact ⟨trivial, trivial, by decide⟩

/-- C10 witness: a call that enters with a video still playing and the
stop event only pending in the queue drains it in that same call, so
playback is stopped at detection time and both sticky flags end false
with no trick-mode detection run. -/
theorem C10_witness :
    (analyzeContents envTrivial
      { videoExtendedMode := true, forceCloneMode := true,
        videoPlaying := true,
        pendingEvents := [Event.video false false] }
      [some primaryContent, some extContentFull]).1.1.videoExtendedMode =
      false ∧
    (analyzeContents envTrivial
      { videoExtendedMode := true, forceCloneMode := true,
        videoPlaying := true,
        pendingEvents := [Event.video false false] }
      [some primaryContent, some extContentFull]).1.1.forceCloneMode =
      false ∧
    Step.trickDetect ∉ (analyzeContents envTrivial
      { videoExtendedMode := true, forceCloneMode := true,
        videoPlaying := true,
        pendingEvents := [Event.video false false] }
      [some primaryContent, some extContentFull]).2 :=
  C10_video_stopped_clears_modes envTrivial
    { videoExtendedMode := true, forceCloneMode := true,
      videoPlaying := true,
      pendingEvents := [Event.video false false] }
    [some primaryContent, some extContentFull] rfl rfl

end DisplayAnalyzerModel
